import Mathlib

/-!
Shallow embedding of the Claude CLI proxy server (claude-cli-proxy.mjs,
the hardened variant) of the VibeCoder repository.

The request handler of the proxy is event driven: Node delivers body chunks,
then the parsed request is validated, a subprocess is spawned, and the
stdout/stderr/close/error events of the subprocess drive the HTTP response.
We embed each handler as a pure function from the current per-request
state and one event to the next state plus the list of observable
actions it performs (header writes, SSE frames, body writes, spawn,
kill, socket destruction).  A whole request is a fold of these handlers
over the event trace, so properties about the byte stream become
properties of the resulting action list.
-/

namespace Proxy

/-- A chat message as carried in the request body: a role string
("system" / "user" / "assistant" / anything else) and its content. -/
structure Message where
  role : String
  content : String
  deriving DecidableEq, Repr

/-- Source: `const VALID_MODELS = ["opus", "sonnet", "haiku"]`. -/
def VALID_MODELS : List String := ["opus", "sonnet", "haiku"]

/-- Test `listStartsWith p l` : `p` is an initial segment of `l`. -/
def listStartsWith : List Char → List Char → Bool
  | [], _ => true
  | _ :: _, [] => false
  | p :: ps, c :: cs => p == c && listStartsWith ps cs

/-- Test `listHasSub pat l` : `pat` occurs contiguously inside `l`. -/
def listHasSub (pat : List Char) : List Char → Bool
  | [] => listStartsWith pat []
  | c :: cs => listStartsWith pat (c :: cs) || listHasSub pat cs

/-- JavaScript `s.includes(pat)` : substring test on strings. -/
def strIncludes (s pat : String) : Bool :=
  listHasSub pat.toList s.toList

/-- Function `getErrorMessage(error, stderr)` from the proxy source.  `error` is
the spawn `Error` object, modelled by its `.message` (`none` stands for
the JavaScript `null` passed at the close-handler call sites);
`error?.message || ""` becomes `Option.getD ""`. -/
def getErrorMessage (error : Option String) (stderr : String) : String :=
  let errorStr := error.getD ""
  let stderrStr := stderr
  if strIncludes errorStr "ENOENT" || strIncludes errorStr "not found" then
    "Claude CLI not installed. Run: npm install -g @anthropic-ai/claude-code"
  else if strIncludes stderrStr "not authenticated" || strIncludes stderrStr "login" then
    "Claude CLI not authenticated. Run: claude login"
  else if strIncludes stderrStr "rate limit" then
    "Rate limit exceeded. Please wait and try again."
  else if stderrStr != "" then stderrStr
  else if errorStr != "" then errorStr
  else "Unknown error occurred"

/-- One step of the `for (const msg of messages)` loop of
`buildConversationPrompt`: the accumulator is the current
`systemPrompt` (overwritten by each system message, so the last one
wins) and the `conversationParts` list. -/
def buildStep (acc : String × List String) (msg : Message) : String × List String :=
  if msg.role == "system" then (msg.content, acc.2)
  else if msg.role == "user" then (acc.1, acc.2 ++ ["Human: " ++ msg.content])
  else if msg.role == "assistant" then (acc.1, acc.2 ++ ["Assistant: " ++ msg.content])
  else acc

/-- Function `buildConversationPrompt(messages)` : returns
`{systemPrompt, conversation}` where `conversation` is
`conversationParts.join` with a blank-line separator. -/
def buildConversationPrompt (messages : List Message) : String × String :=
  let r := messages.foldl buildStep ("", [])
  (r.1, String.intercalate "\n\n" r.2)

/-- The parsed JSON body after
`const { model, messages, stream = true } = request`.  `messages` is
`none` when the field is missing or not an array (the
`!messages || !Array.isArray(messages)` cases); the `stream = true`
destructuring default is applied by the decoder. -/
structure CompletionRequest where
  model : String
  messages : Option (List Message)
  stream : Bool
  deriving DecidableEq, Repr

/-- Payload of one SSE `data:` frame, as built by `sendSSE`.  `chunk t`
is a `chat.completion.chunk` with `delta.content = t` and
`finish_reason: null`; `finish r` is a chunk with empty delta and
`finish_reason = r`; `errorMsg m` is the bare `{error: m}` object.
(The `id: chatcmpl-<Date.now()>` field carries no information the
properties mention and is elided.) -/
inductive SSEPayload where
  | chunk (content : String)
  | finish (reason : String)
  | errorMsg (msg : String)
  deriving DecidableEq, Repr

/-- A JSON body passed to `res.end(...)`, kept structural instead of
serialized: `errorBody m` is `{error: m}`; `chatCompletion c` is the
non-streaming success object whose `choices[0].message.content = c`
and `finish_reason = "stop"`. -/
inductive RespBody where
  | errorBody (msg : String)
  | chatCompletion (content : String)
  deriving DecidableEq, Repr

/-- One observable action of the request handler, in the order
performed: response-header write, SSE frame, raw response write,
response end with a JSON body, bare response end, subprocess spawn
(command, argv, shell flag), subprocess kill, request-socket
destruction. -/
inductive Action where
  | writeHead (status : Nat) (contentType : String)
  | sse (p : SSEPayload)
  | rawWrite (s : String)
  | endBody (b : RespBody)
  | endRes
  | spawn (cmd : String) (args : List String) (shellMode : Bool)
  | kill (signal : String)
  | destroy
  deriving DecidableEq, Repr

/-- The literal terminating frame written by `res.write`: `data: [DONE]` plus two newlines. -/
def doneFrame : String := "data: [DONE]\n\n"

/-- One event delivered to the per-request subprocess handlers:
a `stdout` data event, a `stderr` data event, the `close` event with
the exit code (`none` models a `null` code), the spawn-failure `error`
event carrying the error message, or the firing of the timeout timer. -/
inductive ProcEvent where
  | stdoutData (text : String)
  | stderrData (text : String)
  | closed (code : Option Int)
  | spawnErr (message : String)
  | timeoutFire
  deriving DecidableEq, Repr

/-- Per-request mutable state of the handlers: the accumulated
`fullContent` (stdout), `errorContent` (stderr) and the `timedOut`
flag. -/
structure ProcState where
  fullContent : String
  errorContent : String
  timedOut : Bool
  deriving DecidableEq, Repr

/-- The state at spawn time: empty accumulators, flag unset. -/
def initProcState : ProcState := ⟨"", "", false⟩

/-- JavaScript `code !== 0` where `code` may be `null` (kills by
signal report a `null` code, and `null !== 0` is true). -/
def codeNonzero : Option Int → Bool
  | none => true
  | some c => c != 0

/-- The message `Request timed out after <CLAUDE_TIMEOUT / 1000> seconds`.
`CLAUDE_TIMEOUT` is a whole number of milliseconds; the division is
exact at the default 300000. -/
def timeoutMessage (T : Nat) : String :=
  "Request timed out after " ++ toString (T / 1000) ++ " seconds"

/-- The streaming-mode event handlers (the closures installed on
`claude.stdout`, `claude.stderr`, the close and error events of
`claude`, and the timeout timer), parametrised by the
error-classification function so that its influence can be isolated:
the proxy instantiates `classify := getErrorMessage`. -/
def streamHandleGen (classify : Option String → String → String) (T : Nat)
    (st : ProcState) : ProcEvent → ProcState × List Action
  | .stdoutData t =>
      ({st with fullContent := st.fullContent ++ t}, [.sse (.chunk t)])
  | .stderrData t =>
      ({st with errorContent := st.errorContent ++ t}, [])
  | .timeoutFire =>
      ({st with timedOut := true}, [.kill "SIGTERM"])
  | .closed code =>
      (st,
        (if st.timedOut then [Action.sse (.errorMsg (timeoutMessage T))]
         else if codeNonzero code && st.fullContent == "" then
           [Action.sse (.errorMsg (classify none st.errorContent))]
         else [])
        ++ [Action.sse (.finish (if st.timedOut then "timeout" else "stop")),
            Action.rawWrite doneFrame, Action.endRes])
  | .spawnErr m =>
      (st, [Action.sse (.errorMsg (classify (some m) st.errorContent)), Action.endRes])

/-- The streaming handlers as installed by the proxy. -/
def streamHandle (T : Nat) (st : ProcState) (e : ProcEvent) : ProcState × List Action :=
  streamHandleGen getErrorMessage T st e

/-- Fold the streaming handlers over an event trace, collecting the
actions. -/
def streamRun (T : Nat) (st : ProcState) : List ProcEvent → List Action
  | [] => []
  | e :: es => (streamHandle T st e).2 ++ streamRun T (streamHandle T st e).1 es

/-- The state after folding the streaming handlers over an event
trace. -/
def streamExec (T : Nat) (st : ProcState) : List ProcEvent → ProcState
  | [] => st
  | e :: es => streamExec T (streamHandle T st e).1 es

/-- The non-streaming-mode event handlers, parametrised like
`streamHandleGen`. -/
def nonStreamHandleGen (classify : Option String → String → String) (T : Nat)
    (st : ProcState) : ProcEvent → ProcState × List Action
  | .stdoutData t =>
      ({st with fullContent := st.fullContent ++ t}, [])
  | .stderrData t =>
      ({st with errorContent := st.errorContent ++ t}, [])
  | .timeoutFire =>
      ({st with timedOut := true}, [.kill "SIGTERM"])
  | .closed code =>
      (st,
        if st.timedOut then
          [Action.writeHead 504 "application/json",
           Action.endBody (.errorBody (timeoutMessage T))]
        else if codeNonzero code then
          [Action.writeHead 500 "application/json",
           Action.endBody (.errorBody (classify none st.errorContent))]
        else
          [Action.writeHead 200 "application/json",
           Action.endBody (.chatCompletion st.fullContent)])
  | .spawnErr m =>
      (st, [Action.writeHead 500 "application/json",
            Action.endBody (.errorBody (classify (some m) st.errorContent))])

/-- The non-streaming handlers as installed by the proxy. -/
def nonStreamHandle (T : Nat) (st : ProcState) (e : ProcEvent) : ProcState × List Action :=
  nonStreamHandleGen getErrorMessage T st e

/-- Fold the non-streaming handlers over an event trace. -/
def nonStreamRun (T : Nat) (st : ProcState) : List ProcEvent → List Action
  | [] => []
  | e :: es => (nonStreamHandle T st e).2 ++ nonStreamRun T (nonStreamHandle T st e).1 es

/-- The state after folding the non-streaming handlers. -/
def nonStreamExec (T : Nat) (st : ProcState) : List ProcEvent → ProcState
  | [] => st
  | e :: es => nonStreamExec T (nonStreamHandle T st e).1 es

/-- The argv construction: `args` starts as `-p --model <model>`, then
`--dangerously-skip-permissions` when `SKIP_PERMISSIONS`, then
`--system-prompt <systemPrompt>` when `systemPrompt` is truthy
(non-empty), then the flattened conversation as final positional
argument. -/
def buildArgs (skipPermissions : Bool) (model systemPrompt conversation : String) :
    List String :=
  ["-p", "--model", model]
    ++ (if skipPermissions then ["--dangerously-skip-permissions"] else [])
    ++ (if systemPrompt != "" then ["--system-prompt", systemPrompt] else [])
    ++ [conversation]

/-- The environment-derived configuration, read once at startup. -/
structure Config where
  claudeTimeout : Nat
  skipPermissions : Bool
  maxBodySize : Nat
  deriving DecidableEq, Repr

/-- The defaults: `CLAUDE_TIMEOUT = 300000`, `SKIP_PERMISSIONS = true`,
`MAX_BODY_SIZE = 1048576`. -/
def defaultConfig : Config := ⟨300000, true, 1048576⟩

/-- Source: `!messages || !Array.isArray(messages) || messages.length === 0`. -/
def messagesInvalid (req : CompletionRequest) : Bool :=
  match req.messages with
  | none => true
  | some l => l.isEmpty

/-- Source: `messages.some(m => m.role === "user")`. -/
def hasUserMessage (req : CompletionRequest) : Bool :=
  (req.messages.getD []).any fun m => m.role == "user"

/-- A request that passes all three validation checks. -/
def validRequest (req : CompletionRequest) : Bool :=
  VALID_MODELS.contains req.model && !(messagesInvalid req) && hasUserMessage req

/-- The body of the end-event handler of `req` after a successful
`JSON.parse`: the three validation checks in source order, each
short-circuiting with a 400 JSON error, then argv construction and the
spawn.  In streaming mode the 200 `text/event-stream` header is
written before the spawn, and the subprocess events then drive
`streamRun`; in non-streaming mode nothing is written until the
subprocess terminates (`nonStreamRun`).  (The `console.log` calls are
not modelled.) -/
def handleParsed (cfg : Config) (req : CompletionRequest) (events : List ProcEvent) :
    List Action :=
  if !(VALID_MODELS.contains req.model) then
    [.writeHead 400 "application/json",
     .endBody (.errorBody ("Invalid model: " ++ req.model ++ ". Valid models: "
       ++ String.intercalate ", " VALID_MODELS))]
  else if messagesInvalid req then
    [.writeHead 400 "application/json", .endBody (.errorBody "Messages array is required")]
  else if !(hasUserMessage req) then
    [.writeHead 400 "application/json", .endBody (.errorBody "No user message found")]
  else
    let bp := buildConversationPrompt (req.messages.getD [])
    let args := buildArgs cfg.skipPermissions req.model bp.1 bp.2
    if req.stream then
      Action.writeHead 200 "text/event-stream" :: Action.spawn "claude" args false
        :: streamRun cfg.claudeTimeout initProcState events
    else
      Action.spawn "claude" args false :: nonStreamRun cfg.claudeTimeout initProcState events

/-- State of the body-accumulation phase (the data-event handler): the
accumulated `body` string, the accumulated byte count `bodySize`, and
whether the 413 rejection already happened (`req.destroy()` stops the
chunk stream; this flag models that later chunks are discarded). -/
structure BodyState where
  body : String
  bodySize : Nat
  rejected : Bool
  deriving DecidableEq, Repr

/-- The empty body-accumulation state. -/
def initBodyState : BodyState := ⟨"", 0, false⟩

/-- One data-event callback of `req`: `bodySize` grows by
the byte length of the chunk before the comparison, so a chunk pushing the
count strictly over `MAX_BODY_SIZE` triggers the 413 + destroy and is
not appended; otherwise the chunk text is appended to `body`. -/
def bodyStep (maxSize : Nat) (st : BodyState) (chunk : String) : BodyState × List Action :=
  if st.rejected then (st, [])
  else
    let newSize := st.bodySize + chunk.utf8ByteSize
    if maxSize < newSize then
      ({st with bodySize := newSize, rejected := true},
       [.writeHead 413 "application/json",
        .endBody (.errorBody ("Request body too large. Maximum size: "
          ++ toString maxSize ++ " bytes")),
        .destroy])
    else
      ({st with body := st.body ++ chunk, bodySize := newSize}, [])

/-- Fold `bodyStep` over the incoming chunk list. -/
def receiveBody (maxSize : Nat) (st : BodyState) : List String → BodyState × List Action
  | [] => (st, [])
  | c :: cs =>
      ((receiveBody maxSize (bodyStep maxSize st c).1 cs).1,
       (bodyStep maxSize st c).2
         ++ (receiveBody maxSize (bodyStep maxSize st c).1 cs).2)

/-- The whole `handleChatCompletion` handler: accumulate the body
chunks; if the 413 rejection happened, processing stops there (the
socket was destroyed, so the end event never fires); otherwise the
body is parsed (`decode` stands for `JSON.parse` plus the
destructuring; a parse failure is caught and answered with 400
carrying the parse error message) and handed to the validator. -/
def handleChatCompletion (cfg : Config) (chunks : List String)
    (decode : String → Except String CompletionRequest) (events : List ProcEvent) :
    List Action :=
  let r := receiveBody cfg.maxBodySize initBodyState chunks
  if r.1.rejected then r.2
  else
    r.2 ++ match decode r.1.body with
      | .error msg => [.writeHead 400 "application/json", .endBody (.errorBody msg)]
      | .ok req => handleParsed cfg req events

/-- Returns `true` when the action writes bytes on the HTTP response
(headers, frames, raw writes, the final body); `endRes`, the spawn,
the kill and the socket destruction are not response writes. -/
def isWrite : Action → Bool
  | .writeHead _ _ => true
  | .sse _ => true
  | .rawWrite _ => true
  | .endBody _ => true
  | _ => false

/-- Returns `true` exactly on subprocess-spawn actions. -/
def isSpawn : Action → Bool
  | .spawn _ _ _ => true
  | _ => false

/-- Returns `true` exactly on header-write actions. -/
def isWriteHead : Action → Bool
  | .writeHead _ _ => true
  | _ => false

/-- Returns `true` exactly on SSE frames carrying a non-null
`finish_reason`. -/
def isFinishFrame : Action → Bool
  | .sse (.finish _) => true
  | _ => false

/-- Returns `true` on the actions a streaming request performs between spawn
and terminal event: content-bearing SSE chunks and the SIGTERM
kill. -/
def isChunkOrKill : Action → Bool
  | .sse (.chunk _) => true
  | .kill _ => true
  | _ => false

/-- A trace with no terminal event (`close` or spawn `error`). -/
def noTerminal (evs : List ProcEvent) : Bool :=
  evs.all fun e =>
    match e with
    | .closed _ => false
    | .spawnErr _ => false
    | _ => true

/-- A trace on which the timeout timer never fires. -/
def noTimeout (evs : List ProcEvent) : Bool :=
  evs.all fun e =>
    match e with
    | .timeoutFire => false
    | _ => true

/-- Returns `true` exactly on SSE frames carrying an `{error}` payload. -/
def isErrFrame : Action → Bool
  | .sse (.errorMsg _) => true
  | _ => false

/-- The claim-side rendering of one conversation turn: user messages
become "Human: ..." lines, assistant messages "Assistant: ..." lines,
anything else is dropped. -/
def renderTurn (m : Message) : Option String :=
  if m.role == "user" then some ("Human: " ++ m.content)
  else if m.role == "assistant" then some ("Assistant: " ++ m.content)
  else none

/-- The description the spec gives of the error classifier, transcribed from
its words: the install instruction iff the error message contains
"ENOENT" or "not found"; otherwise the re-authentication instruction
iff stderr contains "not authenticated" or "login"; otherwise the
rate-limit backoff iff stderr contains "rate limit"; otherwise stderr
if non-empty, else the error message if non-empty, else
"Unknown error occurred". -/
def errorMessageSpec (error : Option String) (stderr : String) : String :=
  if strIncludes (error.getD "") "ENOENT" || strIncludes (error.getD "") "not found" then
    "Claude CLI not installed. Run: npm install -g @anthropic-ai/claude-code"
  else if strIncludes stderr "not authenticated" || strIncludes stderr "login" then
    "Claude CLI not authenticated. Run: claude login"
  else if strIncludes stderr "rate limit" then
    "Rate limit exceeded. Please wait and try again."
  else if stderr != "" then stderr
  else if error.getD "" != "" then error.getD ""
  else "Unknown error occurred"

/-- The shape of an action with the classifier-produced error text
erased: what remains determines the terminal state the client observes
(status codes, finish reasons, frame kinds) but not the human-readable
message attached to a failure. -/
inductive ActionShape where
  | headShape (status : Nat) (contentType : String)
  | chunkShape (t : String)
  | finishShape (r : String)
  | errFrameShape
  | rawShape (s : String)
  | errBodyShape
  | okBodyShape (content : String)
  | endShape
  | spawnShape (cmd : String) (args : List String) (shellMode : Bool)
  | killShape (sig : String)
  | destroyShape
  deriving DecidableEq, Repr

/-- Erase the message text of error frames and error bodies, keeping
everything else. -/
def shapeOf : Action → ActionShape
  | .writeHead s c => .headShape s c
  | .sse (.chunk t) => .chunkShape t
  | .sse (.finish r) => .finishShape r
  | .sse (.errorMsg _) => .errFrameShape
  | .rawWrite s => .rawShape s
  | .endBody (.errorBody _) => .errBodyShape
  | .endBody (.chatCompletion c) => .okBodyShape c
  | .endRes => .endShape
  | .spawn c a sh => .spawnShape c a sh
  | .kill s => .killShape s
  | .destroy => .destroyShape

/-! ### Run-level lemmas -/

theorem streamRun_append (T : Nat) (st : ProcState) (xs ys : List ProcEvent) :
    streamRun T st (xs ++ ys)
      = streamRun T st xs ++ streamRun T (streamExec T st xs) ys := by
  induction xs generalizing st with
  | nil => simp [streamRun, streamExec]
  | cons e es ih => simp [streamRun, streamExec, ih]

theorem nonStreamRun_append (T : Nat) (st : ProcState) (xs ys : List ProcEvent) :
    nonStreamRun T st (xs ++ ys)
      = nonStreamRun T st xs ++ nonStreamRun T (nonStreamExec T st xs) ys := by
  induction xs generalizing st with
  | nil => simp [nonStreamRun, nonStreamExec]
  | cons e es ih => simp [nonStreamRun, nonStreamExec, ih]

theorem streamExec_append_state (T : Nat) (st : ProcState) (xs ys : List ProcEvent) :
    streamExec T st (xs ++ ys) = streamExec T (streamExec T st xs) ys := by
  induction xs generalizing st with
  | nil => simp [streamExec]
  | cons e es ih => simp [streamExec, ih]

theorem nonStreamExec_append_state (T : Nat) (st : ProcState) (xs ys : List ProcEvent) :
    nonStreamExec T st (xs ++ ys) = nonStreamExec T (nonStreamExec T st xs) ys := by
  induction xs generalizing st with
  | nil => simp [nonStreamExec]
  | cons e es ih => simp [nonStreamExec, ih]

theorem streamHandle_timedOut (T : Nat) (st : ProcState) (e : ProcEvent) :
    (streamHandle T st e).1.timedOut = (st.timedOut || e == ProcEvent.timeoutFire) := by
  cases e <;> simp [streamHandle, streamHandleGen]

theorem nonStreamHandle_timedOut (T : Nat) (st : ProcState) (e : ProcEvent) :
    (nonStreamHandle T st e).1.timedOut = (st.timedOut || e == ProcEvent.timeoutFire) := by
  cases e <;> simp [nonStreamHandle, nonStreamHandleGen]

theorem streamExec_timedOut_mono (T : Nat) (evs : List ProcEvent) (st : ProcState)
    (h : st.timedOut = true) : (streamExec T st evs).timedOut = true := by
  induction evs generalizing st with
  | nil => simpa [streamExec] using h
  | cons e es ih =>
      simp only [streamExec]
      exact ih _ (by simp [streamHandle_timedOut, h])

theorem nonStreamExec_timedOut_mono (T : Nat) (evs : List ProcEvent) (st : ProcState)
    (h : st.timedOut = true) : (nonStreamExec T st evs).timedOut = true := by
  induction evs generalizing st with
  | nil => simpa [nonStreamExec] using h
  | cons e es ih =>
      simp only [nonStreamExec]
      exact ih _ (by simp [nonStreamHandle_timedOut, h])

theorem streamExec_noTimeout (T : Nat) (evs : List ProcEvent) (st : ProcState)
    (hevs : noTimeout evs = true) (h : st.timedOut = false) :
    (streamExec T st evs).timedOut = false := by
  induction evs generalizing st with
  | nil => simpa [streamExec] using h
  | cons e es ih =>
      simp only [noTimeout, List.all_cons, Bool.and_eq_true] at hevs
      simp only [streamExec]
      refine ih _ hevs.2 ?_
      rw [streamHandle_timedOut, h]
      cases e <;> simp_all

theorem nonStreamExec_noTimeout (T : Nat) (evs : List ProcEvent) (st : ProcState)
    (hevs : noTimeout evs = true) (h : st.timedOut = false) :
    (nonStreamExec T st evs).timedOut = false := by
  induction evs generalizing st with
  | nil => simpa [nonStreamExec] using h
  | cons e es ih =>
      simp only [noTimeout, List.all_cons, Bool.and_eq_true] at hevs
      simp only [nonStreamExec]
      refine ih _ hevs.2 ?_
      rw [nonStreamHandle_timedOut, h]
      cases e <;> simp_all

theorem streamRun_noTerminal (T : Nat) (evs : List ProcEvent) (st : ProcState)
    (hevs : noTerminal evs = true) :
    (streamRun T st evs).all isChunkOrKill = true := by
  induction evs generalizing st with
  | nil => simp [streamRun]
  | cons e es ih =>
      simp only [noTerminal, List.all_cons, Bool.and_eq_true] at hevs
      simp only [streamRun, List.all_append]
      rw [Bool.and_eq_true]
      refine ⟨?_, ih _ hevs.2⟩
      cases e <;> simp_all [streamHandle, streamHandleGen, isChunkOrKill]

theorem streamRun_no_writeHead (T : Nat) (evs : List ProcEvent) (st : ProcState) :
    (streamRun T st evs).all (fun a => !isWriteHead a) = true := by
  induction evs generalizing st with
  | nil => simp [streamRun]
  | cons e es ih =>
      simp only [streamRun, List.all_append]
      rw [Bool.and_eq_true]
      refine ⟨?_, ih _⟩
      cases e <;> simp only [streamHandle, streamHandleGen] <;>
        first
          | (split_ifs <;> simp [isWriteHead])
          | simp [isWriteHead]

theorem streamRun_no_spawn (T : Nat) (evs : List ProcEvent) (st : ProcState) :
    (streamRun T st evs).all (fun a => !isSpawn a) = true := by
  induction evs generalizing st with
  | nil => simp [streamRun]
  | cons e es ih =>
      simp only [streamRun, List.all_append]
      rw [Bool.and_eq_true]
      refine ⟨?_, ih _⟩
      cases e <;> simp only [streamHandle, streamHandleGen] <;>
        first
          | (split_ifs <;> simp [isSpawn])
          | simp [isSpawn]

theorem nonStreamRun_no_spawn (T : Nat) (evs : List ProcEvent) (st : ProcState) :
    (nonStreamRun T st evs).all (fun a => !isSpawn a) = true := by
  induction evs generalizing st with
  | nil => simp [nonStreamRun]
  | cons e es ih =>
      simp only [nonStreamRun, List.all_append]
      rw [Bool.and_eq_true]
      refine ⟨?_, ih _⟩
      cases e <;> simp only [nonStreamHandle, nonStreamHandleGen] <;>
        first
          | (split_ifs <;> simp [isSpawn])
          | simp [isSpawn]

theorem streamRun_filter_spawn (T : Nat) (evs : List ProcEvent) (st : ProcState) :
    (streamRun T st evs).filter isSpawn = [] := by
  rw [List.filter_eq_nil_iff]
  have h := streamRun_no_spawn T evs st
  rw [List.all_eq_true] at h
  intro a ha
  simpa using h a ha

theorem nonStreamRun_filter_spawn (T : Nat) (evs : List ProcEvent) (st : ProcState) :
    (nonStreamRun T st evs).filter isSpawn = [] := by
  rw [List.filter_eq_nil_iff]
  have h := nonStreamRun_no_spawn T evs st
  rw [List.all_eq_true] at h
  intro a ha
  simpa using h a ha

/-! ### Claim theorems -/

/-- C9: `getErrorMessage(error, stderr)` classifies exactly as the spec
cascade says — install instruction iff the error message contains
"ENOENT" or "not found"; else re-authentication iff stderr contains
"not authenticated" or "login"; else rate-limit backoff iff stderr
contains "rate limit"; else stderr if non-empty, else the error
message if non-empty, else "Unknown error occurred" — and the
classifier never changes which terminal state is reached: replacing it
by any other classifier leaves the next state of every handler and the
shape of every emitted action (status codes, finish reasons, frame
kinds) unchanged, altering only the attached message text. -/
theorem errorClassification_advisory :
    (∀ (error : Option String) (stderrText : String),
        getErrorMessage error stderrText = errorMessageSpec error stderrText)
    ∧ (∀ (c₁ c₂ : Option String → String → String) (T : Nat) (st : ProcState)
          (ev : ProcEvent),
        (streamHandleGen c₁ T st ev).1 = (streamHandleGen c₂ T st ev).1
        ∧ ((streamHandleGen c₁ T st ev).2.map shapeOf
            = (streamHandleGen c₂ T st ev).2.map shapeOf)
        ∧ (nonStreamHandleGen c₁ T st ev).1 = (nonStreamHandleGen c₂ T st ev).1
        ∧ ((nonStreamHandleGen c₁ T st ev).2.map shapeOf
            = (nonStreamHandleGen c₂ T st ev).2.map shapeOf)) := by
  constructor
  · intro error stderrText
    rfl
  · intro c₁ c₂ T st ev
    refine ⟨?_, ?_, ?_, ?_⟩ <;> cases ev <;>
      simp only [streamHandleGen, nonStreamHandleGen] <;>
      first
        | (split_ifs <;> simp [shapeOf])
        | simp [shapeOf]

theorem streamRun_stdout_chunks (T : Nat) (texts : List String) (st : ProcState)
    (h : st.timedOut = false) :
    streamRun T st (texts.map ProcEvent.stdoutData ++ [ProcEvent.closed (some 0)])
      = texts.map (fun t => Action.sse (.chunk t))
        ++ [Action.sse (.finish "stop"), Action.rawWrite doneFrame, Action.endRes] := by
  induction texts generalizing st with
  | nil => simp [streamRun, streamHandle, streamHandleGen, h, codeNonzero]
  | cons t ts ih =>
      simp only [List.map_cons, List.cons_append, streamRun, streamHandle, streamHandleGen,
        List.append_eq, List.nil_append]
      rw [ih ⟨st.fullContent ++ t, st.errorContent, st.timedOut⟩ h]

/-- C8: in streaming mode each subprocess stdout data event produces
exactly one SSE chunk whose `delta.content` is that fragment, flushed
in delivery order with no buffering, reordering or reframing: a run
that emits the fragments `texts` and exits 0 yields exactly the
corresponding content frames in order, then one `finish_reason:"stop"`
frame, then the `[DONE]` sentinel (the scenario "a","b","c" is the
instance `texts = ["a","b","c"]`). -/
theorem stdout_fifo_passthrough (T : Nat) (texts : List String) :
    streamRun T initProcState (texts.map ProcEvent.stdoutData ++ [ProcEvent.closed (some 0)])
      = texts.map (fun t => Action.sse (.chunk t))
        ++ [Action.sse (.finish "stop"), Action.rawWrite doneFrame, Action.endRes] :=
  streamRun_stdout_chunks T texts initProcState rfl

theorem invalidModelMsg (m : String) :
    "Invalid model: " ++ m ++ ". Valid models: " ++ String.intercalate ", " VALID_MODELS
      = "Invalid model: " ++ m ++ ". Valid models: opus, sonnet, haiku" := by
  simp only [String.append_assoc]
  rfl

/-- C2: the validator applies its three checks in source order — model
in the allow-list, messages a non-empty array, at least one user
message — short-circuiting at the first failure with a 400 JSON
`{error}` response (the model failure carrying exactly
"Invalid model: m. Valid models: opus, sonnet, haiku"), and a
subprocess is spawned iff all three checks pass. -/
theorem validator_gate (cfg : Config) (req : CompletionRequest) (events : List ProcEvent) :
    ((handleParsed cfg req events).any isSpawn = validRequest req)
    ∧ (VALID_MODELS.contains req.model = false →
        handleParsed cfg req events
          = [Action.writeHead 400 "application/json",
             Action.endBody (.errorBody ("Invalid model: " ++ req.model
               ++ ". Valid models: opus, sonnet, haiku"))])
    ∧ (VALID_MODELS.contains req.model = true → messagesInvalid req = true →
        handleParsed cfg req events
          = [Action.writeHead 400 "application/json",
             Action.endBody (.errorBody "Messages array is required")])
    ∧ (VALID_MODELS.contains req.model = true → messagesInvalid req = false →
        hasUserMessage req = false →
        handleParsed cfg req events
          = [Action.writeHead 400 "application/json",
             Action.endBody (.errorBody "No user message found")]) := by
  refine ⟨?_, ?_, ?_, ?_⟩
  · by_cases hm : VALID_MODELS.contains req.model
    · by_cases hinv : messagesInvalid req
      · simp only [handleParsed, validRequest, hm, hinv]
        simp [isSpawn]
      · by_cases hu : hasUserMessage req
        · simp only [handleParsed, validRequest, hm, hinv, hu]
          cases hs : req.stream <;> simp [isSpawn]
        · simp only [handleParsed, validRequest, hm, hinv, hu]
          simp [isSpawn]
    · rw [Bool.not_eq_true] at hm
      simp only [handleParsed, validRequest, hm]
      simp [isSpawn]
  · intro hm
    simp only [handleParsed, hm, Bool.not_false, if_true]
    rw [invalidModelMsg]
  · intro hm hinv
    simp only [handleParsed, hm, hinv, Bool.not_true]
    simp
  · intro hm hinv hu
    simp only [handleParsed, hm, hinv, hu, Bool.not_true, Bool.not_false]
    simp

/-- Witness for C2 at scenario C: the "gpt-4" request is answered with
the exact 400 invalid-model body and no subprocess spawn. -/
theorem validator_gate_witness :
    handleParsed defaultConfig ⟨"gpt-4", some [⟨"user", "hello"⟩], true⟩ []
      = [Action.writeHead 400 "application/json",
         Action.endBody (.errorBody ("Invalid model: " ++ "gpt-4"
           ++ ". Valid models: opus, sonnet, haiku"))] :=
  (validator_gate defaultConfig ⟨"gpt-4", some [⟨"user", "hello"⟩], true⟩ []).2.1 (by decide)

/-- C5: every validated request — streaming or not — performs exactly
one subprocess spawn, with shell interpretation disabled and with
exactly the argument vector
`-p --model <model>`, then the optional skip-permissions flag, then
the optional system-prompt flag and value, then the conversation,
the flattened transcript being the final positional argument. -/
theorem spawn_argv (cfg : Config) (req : CompletionRequest) (events : List ProcEvent)
    (h : validRequest req = true) :
    (handleParsed cfg req events).filter isSpawn
      = [Action.spawn "claude"
          (["-p", "--model", req.model]
            ++ (if cfg.skipPermissions then ["--dangerously-skip-permissions"] else [])
            ++ (if (buildConversationPrompt (req.messages.getD [])).1 != "" then
                  ["--system-prompt", (buildConversationPrompt (req.messages.getD [])).1]
                else [])
            ++ [(buildConversationPrompt (req.messages.getD [])).2])
          false] := by
  simp only [validRequest, Bool.and_eq_true, Bool.not_eq_true'] at h
  obtain ⟨⟨hm, hinv⟩, hu⟩ := h
  simp only [handleParsed, hm, hinv, hu, Bool.not_true, Bool.not_false]
  cases hs : req.stream <;>
    simp [isSpawn, buildArgs, streamRun_filter_spawn, nonStreamRun_filter_spawn]

/-- Witness for C5: a concrete valid request with a system prompt
spawns once with the exact argv. -/
theorem spawn_argv_witness :
    (handleParsed defaultConfig
        ⟨"sonnet", some [⟨"system", "be brief"⟩, ⟨"user", "hello"⟩], true⟩ []).filter isSpawn
      = [Action.spawn "claude"
          (["-p", "--model", "sonnet"]
            ++ (if defaultConfig.skipPermissions then ["--dangerously-skip-permissions"] else [])
            ++ (if (buildConversationPrompt ((some [Message.mk "system" "be brief",
                    Message.mk "user" "hello"]).getD [])).1 != "" then
                  ["--system-prompt", (buildConversationPrompt ((some [Message.mk "system"
                    "be brief", Message.mk "user" "hello"]).getD [])).1]
                else [])
            ++ [(buildConversationPrompt ((some [Message.mk "system" "be brief",
                  Message.mk "user" "hello"]).getD [])).2])
          false] :=
  spawn_argv defaultConfig ⟨"sonnet", some [⟨"system", "be brief"⟩, ⟨"user", "hello"⟩], true⟩
    [] (by decide)

/-- C10: for every validated streaming request the 200 status line and
`text/event-stream` headers are written before the subprocess spawn,
and no later action of the streaming run ever writes a status line —
subprocess errors, non-zero exits and timeouts surface only as data
frames inside the already-open 200 stream. -/
theorem stream_headers_before_spawn (cfg : Config) (req : CompletionRequest)
    (events : List ProcEvent) (hv : validRequest req = true) (hs : req.stream = true) :
    (handleParsed cfg req events
      = Action.writeHead 200 "text/event-stream"
        :: Action.spawn "claude"
            (buildArgs cfg.skipPermissions req.model
              (buildConversationPrompt (req.messages.getD [])).1
              (buildConversationPrompt (req.messages.getD [])).2) false
        :: streamRun cfg.claudeTimeout initProcState events)
    ∧ (streamRun cfg.claudeTimeout initProcState events).all (fun a => !isWriteHead a)
        = true := by
  simp only [validRequest, Bool.and_eq_true, Bool.not_eq_true'] at hv
  obtain ⟨⟨hm, hinv⟩, hu⟩ := hv
  refine ⟨?_, streamRun_no_writeHead _ _ _⟩
  simp only [handleParsed, hm, hinv, hu, hs, Bool.not_true, Bool.not_false]
  simp

/-- Witness for C10 at a concrete valid streaming request whose
subprocess fails to spawn: the error is a data frame, the status stays
the already-written 200. -/
theorem stream_headers_before_spawn_witness :
    (handleParsed defaultConfig ⟨"opus", some [⟨"user", "hi"⟩], true⟩
        [ProcEvent.spawnErr "spawn claude ENOENT"]
      = Action.writeHead 200 "text/event-stream"
        :: Action.spawn "claude"
            (buildArgs defaultConfig.skipPermissions "opus"
              (buildConversationPrompt ((some [Message.mk "user" "hi"]).getD [])).1
              (buildConversationPrompt ((some [Message.mk "user" "hi"]).getD [])).2) false
        :: streamRun defaultConfig.claudeTimeout initProcState
            [ProcEvent.spawnErr "spawn claude ENOENT"])
    ∧ (streamRun defaultConfig.claudeTimeout initProcState
        [ProcEvent.spawnErr "spawn claude ENOENT"]).all (fun a => !isWriteHead a) = true :=
  stream_headers_before_spawn defaultConfig ⟨"opus", some [⟨"user", "hi"⟩], true⟩
    [ProcEvent.spawnErr "spawn claude ENOENT"] (by decide) rfl

/-- C4: when the timeout timer fires the subprocess is killed with
SIGTERM and the `timedOut` flag is recorded (in both modes); a
streaming request whose process then closes ends its stream with a
`finish_reason:"timeout"` frame, and a non-streaming request answers
504 with exactly `{error: "Request timed out after T/1000 seconds"}`. -/
theorem timeout_enforcement (T : Nat) (st : ProcState) (pre mid : List ProcEvent)
    (c : Option Int) (hpre : noTerminal pre = true) (hmid : noTerminal mid = true) :
    (streamHandle T st ProcEvent.timeoutFire
        = ({st with timedOut := true}, [Action.kill "SIGTERM"]))
    ∧ (nonStreamHandle T st ProcEvent.timeoutFire
        = ({st with timedOut := true}, [Action.kill "SIGTERM"]))
    ∧ (∃ w, streamRun T initProcState
          (pre ++ ProcEvent.timeoutFire :: mid ++ [ProcEvent.closed c])
        = w ++ [Action.sse (.finish "timeout"), Action.rawWrite doneFrame, Action.endRes])
    ∧ (∃ w, nonStreamRun T initProcState
          (pre ++ ProcEvent.timeoutFire :: mid ++ [ProcEvent.closed c])
        = w ++ [Action.writeHead 504 "application/json",
                Action.endBody (.errorBody ("Request timed out after "
                  ++ toString (T / 1000) ++ " seconds"))]) := by
  refine ⟨rfl, rfl, ?_, ?_⟩
  · have hsplit : pre ++ ProcEvent.timeoutFire :: mid ++ [ProcEvent.closed c]
        = (pre ++ ProcEvent.timeoutFire :: mid) ++ [ProcEvent.closed c] := by
      simp
    rw [hsplit, streamRun_append]
    have hto : (streamExec T initProcState (pre ++ ProcEvent.timeoutFire :: mid)).timedOut
        = true := by
      have h1 : ProcEvent.timeoutFire :: mid = [ProcEvent.timeoutFire] ++ mid := rfl
      rw [streamExec_append_state, h1, streamExec_append_state]
      exact streamExec_timedOut_mono T mid _ (by simp [streamExec, streamHandle,
        streamHandleGen])
    refine ⟨streamRun T initProcState (pre ++ ProcEvent.timeoutFire :: mid)
      ++ [Action.sse (.errorMsg (timeoutMessage T))], ?_⟩
    simp [streamRun, streamHandle, streamHandleGen, hto, timeoutMessage]
  · have hsplit : pre ++ ProcEvent.timeoutFire :: mid ++ [ProcEvent.closed c]
        = (pre ++ ProcEvent.timeoutFire :: mid) ++ [ProcEvent.closed c] := by
      simp
    rw [hsplit, nonStreamRun_append]
    have hto : (nonStreamExec T initProcState
        (pre ++ ProcEvent.timeoutFire :: mid)).timedOut = true := by
      have h1 : ProcEvent.timeoutFire :: mid = [ProcEvent.timeoutFire] ++ mid := rfl
      rw [nonStreamExec_append_state, h1, nonStreamExec_append_state]
      exact nonStreamExec_timedOut_mono T mid _ (by simp [nonStreamExec, nonStreamHandle,
        nonStreamHandleGen])
    refine ⟨nonStreamRun T initProcState (pre ++ ProcEvent.timeoutFire :: mid), ?_⟩
    simp [nonStreamRun, nonStreamHandle, nonStreamHandleGen, hto, timeoutMessage]

/-- Witness for C4: the minimal timed-out trace at the default
timeout. -/
theorem timeout_enforcement_witness :
    (streamHandle 300000 initProcState ProcEvent.timeoutFire
        = ({initProcState with timedOut := true}, [Action.kill "SIGTERM"]))
    ∧ (nonStreamHandle 300000 initProcState ProcEvent.timeoutFire
        = ({initProcState with timedOut := true}, [Action.kill "SIGTERM"]))
    ∧ (∃ w, streamRun 300000 initProcState
          ([] ++ ProcEvent.timeoutFire :: [] ++ [ProcEvent.closed none])
        = w ++ [Action.sse (.finish "timeout"), Action.rawWrite doneFrame, Action.endRes])
    ∧ (∃ w, nonStreamRun 300000 initProcState
          ([] ++ ProcEvent.timeoutFire :: [] ++ [ProcEvent.closed none])
        = w ++ [Action.writeHead 504 "application/json",
                Action.endBody (.errorBody ("Request timed out after "
                  ++ toString (300000 / 1000) ++ " seconds"))]) :=
  timeout_enforcement 300000 initProcState [] [] none rfl rfl

theorem chunkOrKill_not_terminal (a : Action) (h : isChunkOrKill a = true) :
    (!isFinishFrame a && !(a == Action.rawWrite doneFrame)) = true := by
  cases a with
  | writeHead s c => exact Bool.noConfusion h
  | sse p =>
      cases p with
      | chunk t => rfl
      | finish r => exact Bool.noConfusion h
      | errorMsg m => exact Bool.noConfusion h
  | rawWrite s => exact Bool.noConfusion h
  | endBody b => exact Bool.noConfusion h
  | endRes => exact Bool.noConfusion h
  | spawn cm ar sh => exact Bool.noConfusion h
  | kill s => rfl
  | destroy => exact Bool.noConfusion h

/-- C1 (counterexample): the claim fails on the spawn-failure terminal
path.  When the subprocess fails to spawn (ENOENT), the streaming
response consists of a single `{error}` data frame followed by
`res.end()` — no frame with a non-null finish_reason and no
`data: [DONE]` sentinel are ever written. -/
theorem stream_termination_cex :
    streamRun 300000 initProcState [ProcEvent.spawnErr "spawn claude ENOENT"]
      = [Action.sse (.errorMsg
           "Claude CLI not installed. Run: npm install -g @anthropic-ai/claude-code"),
         Action.endRes]
    ∧ (streamRun 300000 initProcState [ProcEvent.spawnErr "spawn claude ENOENT"]).all
        (fun a => !isFinishFrame a && !(a == Action.rawWrite doneFrame)) = true := by
  constructor
  · decide
  · decide

/-- C1 (amended): for every streaming request, on every terminal path
that reaches the close handler — normal exit, non-zero exit and
timeout alike — the response ends with exactly one frame whose
finish_reason is non-null ("stop" or "timeout") followed by exactly
one literal `data: [DONE]\n\n` frame, and these are the last two
writes; the spawn-failure path instead ends the stream with a single
error data frame and writes neither (see the counterexample). -/
theorem stream_close_termination (T : Nat) (pre : List ProcEvent) (c : Option Int)
    (hpre : noTerminal pre = true) :
    ∃ w r, (streamRun T initProcState (pre ++ [ProcEvent.closed c])).filter isWrite
        = w ++ [Action.sse (.finish r), Action.rawWrite doneFrame]
      ∧ (r = "stop" ∨ r = "timeout")
      ∧ w.all (fun a => !isFinishFrame a && !(a == Action.rawWrite doneFrame)) = true := by
  rw [streamRun_append]
  have hall := streamRun_noTerminal T pre initProcState hpre
  rw [List.all_eq_true] at hall
  set st := streamExec T initProcState pre with hst
  refine ⟨(streamRun T initProcState pre).filter isWrite
      ++ (if st.timedOut then [Action.sse (.errorMsg (timeoutMessage T))]
          else if codeNonzero c && st.fullContent == "" then
            [Action.sse (.errorMsg (getErrorMessage none st.errorContent))]
          else []),
    (if st.timedOut then "timeout" else "stop"), ?_, ?_, ?_⟩
  · have h2 : streamRun T st [ProcEvent.closed c]
        = (if st.timedOut then [Action.sse (.errorMsg (timeoutMessage T))]
           else if codeNonzero c && st.fullContent == "" then
             [Action.sse (.errorMsg (getErrorMessage none st.errorContent))]
           else [])
          ++ [Action.sse (.finish (if st.timedOut then "timeout" else "stop")),
              Action.rawWrite doneFrame, Action.endRes] := by
      simp [streamRun, streamHandle, streamHandleGen]
    have hfe : (if st.timedOut then [Action.sse (.errorMsg (timeoutMessage T))]
        else if codeNonzero c && st.fullContent == "" then
          [Action.sse (.errorMsg (getErrorMessage none st.errorContent))]
        else []).filter isWrite
      = (if st.timedOut then [Action.sse (.errorMsg (timeoutMessage T))]
        else if codeNonzero c && st.fullContent == "" then
          [Action.sse (.errorMsg (getErrorMessage none st.errorContent))]
        else []) := by
      split_ifs <;> simp [isWrite]
    rw [h2, List.filter_append, List.filter_append, hfe]
    simp [isWrite, List.append_assoc]
  · by_cases h : st.timedOut <;> simp [h]
  · rw [List.all_append, Bool.and_eq_true]
    constructor
    · rw [List.all_eq_true]
      intro a ha
      exact chunkOrKill_not_terminal a (hall a (List.mem_of_mem_filter ha))
    · split_ifs <;> rfl

/-- Witness for C1 (amended): a run with one stdout fragment and a
clean exit ends with the "stop" frame and the sentinel as last two
writes. -/
theorem stream_close_termination_witness :
    ∃ w r, (streamRun 300000 initProcState
          ([ProcEvent.stdoutData "hi"] ++ [ProcEvent.closed (some 0)])).filter isWrite
        = w ++ [Action.sse (.finish r), Action.rawWrite doneFrame]
      ∧ (r = "stop" ∨ r = "timeout")
      ∧ w.all (fun a => !isFinishFrame a && !(a == Action.rawWrite doneFrame)) = true :=
  stream_close_termination 300000 [ProcEvent.stdoutData "hi"] (some 0) rfl

/-- C3 (counterexample): the claim fails for non-streaming mode.  A
subprocess that exits 1 after producing non-empty stdout is answered
500 with the classified error body — the accumulated stdout is
discarded and no 200 success JSON is sent. -/
theorem nonzero_exit_output_cex :
    nonStreamRun 300000 initProcState
        [ProcEvent.stdoutData "some output", ProcEvent.closed (some 1)]
      = [Action.writeHead 500 "application/json",
         Action.endBody (.errorBody "Unknown error occurred")] := by
  decide

/-- C3 (amended): a subprocess exiting non-zero with non-empty
accumulated stdout is a terminal success only in streaming mode, where
the stream ends with finish_reason "stop" and no error frame (content
already sent is not retracted); in non-streaming mode any non-zero
exit — with or without accumulated stdout — is answered 500 with the
classified stderr message, and 200 is returned only on exit code 0. -/
theorem nonzero_exit_output_amended (T : Nat) (pre : List ProcEvent) (c : Option Int)
    (h1 : noTerminal pre = true) (h2 : noTimeout pre = true) :
    ((codeNonzero c = true →
        ((streamExec T initProcState pre).fullContent == "") = false →
        streamRun T initProcState (pre ++ [ProcEvent.closed c])
          = streamRun T initProcState pre
            ++ [Action.sse (.finish "stop"), Action.rawWrite doneFrame, Action.endRes]))
    ∧ (codeNonzero c = true →
        nonStreamRun T initProcState (pre ++ [ProcEvent.closed c])
          = nonStreamRun T initProcState pre
            ++ [Action.writeHead 500 "application/json",
                Action.endBody (.errorBody
                  (getErrorMessage none (nonStreamExec T initProcState pre).errorContent))])
    ∧ (codeNonzero c = false →
        nonStreamRun T initProcState (pre ++ [ProcEvent.closed c])
          = nonStreamRun T initProcState pre
            ++ [Action.writeHead 200 "application/json",
                Action.endBody (.chatCompletion
                  (nonStreamExec T initProcState pre).fullContent)]) := by
  have hto : (streamExec T initProcState pre).timedOut = false :=
    streamExec_noTimeout T pre initProcState h2 rfl
  have hto2 : (nonStreamExec T initProcState pre).timedOut = false :=
    nonStreamExec_noTimeout T pre initProcState h2 rfl
  refine ⟨?_, ?_, ?_⟩
  · intro h4 h3
    rw [streamRun_append]
    simp [streamRun, streamHandle, streamHandleGen, hto, h3, h4]
  · intro h4
    rw [nonStreamRun_append]
    simp [nonStreamRun, nonStreamHandle, nonStreamHandleGen, hto2, h4]
  · intro h4
    rw [nonStreamRun_append]
    simp [nonStreamRun, nonStreamHandle, nonStreamHandleGen, hto2, h4]

/-- Witness for C3 (amended), covering all three branches at concrete
traces: exit 1 after output (streaming "stop" ending and non-streaming
500), exit 1 with empty stdout (non-streaming 500 as well), and exit 0
after output (non-streaming 200 carrying the accumulated stdout). -/
theorem nonzero_exit_output_amended_witness :
    (streamRun 300000 initProcState
        ([ProcEvent.stdoutData "some output"] ++ [ProcEvent.closed (some 1)])
      = streamRun 300000 initProcState [ProcEvent.stdoutData "some output"]
        ++ [Action.sse (.finish "stop"), Action.rawWrite doneFrame, Action.endRes])
    ∧ (nonStreamRun 300000 initProcState
        ([ProcEvent.stdoutData "some output"] ++ [ProcEvent.closed (some 1)])
      = nonStreamRun 300000 initProcState [ProcEvent.stdoutData "some output"]
        ++ [Action.writeHead 500 "application/json",
            Action.endBody (.errorBody
              (getErrorMessage none (nonStreamExec 300000 initProcState
                [ProcEvent.stdoutData "some output"]).errorContent))])
    ∧ (nonStreamRun 300000 initProcState ([] ++ [ProcEvent.closed (some 1)])
      = nonStreamRun 300000 initProcState []
        ++ [Action.writeHead 500 "application/json",
            Action.endBody (.errorBody
              (getErrorMessage none
                (nonStreamExec 300000 initProcState []).errorContent))])
    ∧ (nonStreamRun 300000 initProcState
        ([ProcEvent.stdoutData "some output"] ++ [ProcEvent.closed (some 0)])
      = nonStreamRun 300000 initProcState [ProcEvent.stdoutData "some output"]
        ++ [Action.writeHead 200 "application/json",
            Action.endBody (.chatCompletion
              (nonStreamExec 300000 initProcState
                [ProcEvent.stdoutData "some output"]).fullContent)]) := by
  refine ⟨?_, ?_, ?_, ?_⟩
  · exact (nonzero_exit_output_amended 300000 [ProcEvent.stdoutData "some output"]
      (some 1) rfl rfl).1 (by decide) (by decide)
  · exact (nonzero_exit_output_amended 300000 [ProcEvent.stdoutData "some output"]
      (some 1) rfl rfl).2.1 (by decide)
  · exact (nonzero_exit_output_amended 300000 [] (some 1) rfl rfl).2.1 (by decide)
  · exact (nonzero_exit_output_amended 300000 [ProcEvent.stdoutData "some output"]
      (some 0) rfl rfl).2.2 (by decide)

theorem foldl_buildStep (msgs : List Message) (s : String) (parts : List String) :
    msgs.foldl buildStep (s, parts)
      = ((((msgs.filter fun m => m.role == "system").getLast?).map Message.content).getD s,
         parts ++ msgs.filterMap renderTurn) := by
  induction msgs generalizing s parts with
  | nil => simp
  | cons m ms ih =>
      rcases m with ⟨mr, mc⟩
      by_cases h1 : mr = "system"
      · subst h1
        simp only [List.foldl_cons, buildStep, renderTurn, List.filter_cons,
          List.filterMap_cons]
        simp only [ih]
        cases hl : (ms.filter fun m => m.role == "system").getLast? <;>
          simp [List.getLast?_cons, hl]
      · by_cases h2 : mr = "user"
        · subst h2
          simp only [List.foldl_cons, buildStep, renderTurn, List.filter_cons,
            List.filterMap_cons]
          simp [ih]
        · by_cases h3 : mr = "assistant"
          · subst h3
            simp only [List.foldl_cons, buildStep, renderTurn, List.filter_cons,
              List.filterMap_cons]
            simp [ih]
          · simp only [List.foldl_cons, buildStep, renderTurn, List.filter_cons,
              List.filterMap_cons]
            simp [ih, h1, h2, h3]

/-- C6: `buildConversationPrompt` returns as systemPrompt the content
of the last system-role message (empty string when there is none), and
as conversation the user/assistant messages in their original order,
rendered "Human: "/"Assistant: " respectively and joined with a blank
line between turns; other roles are dropped. -/
theorem conversation_flattening (messages : List Message) :
    (buildConversationPrompt messages).1
      = ((((messages.filter fun m => m.role == "system").getLast?).map
            Message.content).getD "")
    ∧ (buildConversationPrompt messages).2
      = String.intercalate "\n\n" (messages.filterMap renderTurn) := by
  constructor <;> simp [buildConversationPrompt, foldl_buildStep]

theorem join_cons_str (c : String) (cs : List String) :
    String.join (c :: cs) = c ++ String.join cs := by
  apply String.ext
  simp [String.join_eq]

theorem receiveBody_rejected (maxSize : Nat) (chunks : List String) (st : BodyState)
    (h : st.rejected = true) : receiveBody maxSize st chunks = (st, []) := by
  induction chunks generalizing st with
  | nil => simp [receiveBody]
  | cons c cs ih =>
      have hb : bodyStep maxSize st c = (st, []) := by simp [bodyStep, h]
      simp [receiveBody, hb, ih _ h]

theorem receiveBody_append (maxSize : Nat) (st : BodyState) (xs ys : List String) :
    receiveBody maxSize st (xs ++ ys)
      = ((receiveBody maxSize (receiveBody maxSize st xs).1 ys).1,
         (receiveBody maxSize st xs).2
           ++ (receiveBody maxSize (receiveBody maxSize st xs).1 ys).2) := by
  induction xs generalizing st with
  | nil => simp [receiveBody]
  | cons x xs ih => simp [receiveBody, ih]

theorem receiveBody_ok (maxSize : Nat) (chunks : List String) (st : BodyState)
    (hrej : st.rejected = false)
    (hsize : st.bodySize + (chunks.map String.utf8ByteSize).sum ≤ maxSize) :
    receiveBody maxSize st chunks
      = (⟨st.body ++ String.join chunks,
          st.bodySize + (chunks.map String.utf8ByteSize).sum, false⟩, []) := by
  induction chunks generalizing st with
  | nil =>
      rcases st with ⟨b, n, r⟩
      simp only at hrej
      subst hrej
      simp [receiveBody, String.join]
  | cons c cs ih =>
      rcases st with ⟨b, n, r⟩
      simp only at hrej hsize
      subst hrej
      have hlt : ¬ (maxSize < n + c.utf8ByteSize) := by
        simp only [List.map_cons, List.sum_cons] at hsize
        omega
      have hb : bodyStep maxSize ⟨b, n, false⟩ c
          = (⟨b ++ c, n + c.utf8ByteSize, false⟩, []) := by
        simp [bodyStep, hlt]
      have hs2 : (n + c.utf8ByteSize) + (cs.map String.utf8ByteSize).sum ≤ maxSize := by
        simp only [List.map_cons, List.sum_cons] at hsize
        omega
      simp only [receiveBody, hb]
      rw [ih ⟨b ++ c, n + c.utf8ByteSize, false⟩ rfl hs2]
      simp [join_cons_str, String.append_assoc, Nat.add_assoc]

theorem receiveBody_init (maxSize : Nat) (chunks : List String)
    (hsize : (chunks.map String.utf8ByteSize).sum ≤ maxSize) :
    receiveBody maxSize initBodyState chunks
      = (⟨String.join chunks, (chunks.map String.utf8ByteSize).sum, false⟩, []) := by
  have h := receiveBody_ok maxSize chunks initBodyState rfl
    (by simpa [initBodyState] using hsize)
  simpa [initBodyState] using h

theorem receiveBody_overflow (maxSize : Nat) (st : BodyState) (c : String)
    (rest : List String) (hrej : st.rejected = false)
    (hover : maxSize < st.bodySize + c.utf8ByteSize) :
    receiveBody maxSize st (c :: rest)
      = (⟨st.body, st.bodySize + c.utf8ByteSize, true⟩,
         [Action.writeHead 413 "application/json",
          Action.endBody (.errorBody ("Request body too large. Maximum size: "
            ++ toString maxSize ++ " bytes")),
          Action.destroy]) := by
  rcases st with ⟨b, n, r⟩
  simp only at hrej hover
  subst hrej
  have hb : bodyStep maxSize ⟨b, n, false⟩ c
      = (⟨b, n + c.utf8ByteSize, true⟩,
         [Action.writeHead 413 "application/json",
          Action.endBody (.errorBody ("Request body too large. Maximum size: "
            ++ toString maxSize ++ " bytes")),
          Action.destroy]) := by
    simp [bodyStep, hover]
  simp [receiveBody, hb, receiveBody_rejected]

/-- C7: a request body whose total byte length is at most
`MAX_BODY_SIZE` (the boundary case included) is accepted whole — the
accumulated body is the concatenation of the chunks and proceeds to
parsing — while the first chunk pushing the accumulated count strictly
over the ceiling makes the handler answer 413 with the JSON error
body, destroy the socket and abort all further processing: the output
is exactly those three actions whatever chunks follow (they are
discarded), no JSON parse happens (the output is the same for every
decoder) and no subprocess is spawned. -/
theorem body_size_guard (cfg : Config) (p : List String) (c : String) (rest : List String)
    (decode decodeB : String → Except String CompletionRequest) (events : List ProcEvent)
    (hok : (p.map String.utf8ByteSize).sum ≤ cfg.maxBodySize)
    (hover : cfg.maxBodySize < (p.map String.utf8ByteSize).sum + c.utf8ByteSize) :
    ((receiveBody cfg.maxBodySize initBodyState p).1.rejected = false
      ∧ (receiveBody cfg.maxBodySize initBodyState p).1.body = String.join p
      ∧ (receiveBody cfg.maxBodySize initBodyState p).2 = []
      ∧ ∀ req, decode (String.join p) = Except.ok req →
          handleChatCompletion cfg p decode events = handleParsed cfg req events)
    ∧ (handleChatCompletion cfg (p ++ c :: rest) decode events
        = [Action.writeHead 413 "application/json",
           Action.endBody (.errorBody ("Request body too large. Maximum size: "
             ++ toString cfg.maxBodySize ++ " bytes")),
           Action.destroy])
    ∧ (handleChatCompletion cfg (p ++ c :: rest) decode events
        = handleChatCompletion cfg (p ++ c :: rest) decodeB events) := by
  have hrbInit := receiveBody_init cfg.maxBodySize p hok
  have hmain : ∀ d : String → Except String CompletionRequest,
      handleChatCompletion cfg (p ++ c :: rest) d events
        = [Action.writeHead 413 "application/json",
           Action.endBody (.errorBody ("Request body too large. Maximum size: "
             ++ toString cfg.maxBodySize ++ " bytes")),
           Action.destroy] := by
    intro d
    have hov : receiveBody cfg.maxBodySize
        (⟨String.join p, (p.map String.utf8ByteSize).sum, false⟩ : BodyState) (c :: rest)
        = (⟨String.join p, (p.map String.utf8ByteSize).sum + c.utf8ByteSize, true⟩,
           [Action.writeHead 413 "application/json",
            Action.endBody (.errorBody ("Request body too large. Maximum size: "
              ++ toString cfg.maxBodySize ++ " bytes")),
            Action.destroy]) :=
      receiveBody_overflow cfg.maxBodySize _ c rest rfl hover
    simp [handleChatCompletion, receiveBody_append, hrbInit, hov]
  refine ⟨⟨?_, ?_, ?_, ?_⟩, hmain decode, (hmain decode).trans (hmain decodeB).symm⟩
  · rw [hrbInit]
  · rw [hrbInit]
  · rw [hrbInit]
  · intro req hreq
    simp [handleChatCompletion, hrbInit, hreq]

/-- Witness for C7 at a small configured ceiling: ["ab", "cde"] fills
a 5-byte ceiling exactly and is accepted; a further 2-byte chunk "fg"
triggers the 413 teardown whatever follows. -/
theorem body_size_guard_witness :
    ((receiveBody 5 initBodyState ["ab", "cde"]).1.rejected = false
      ∧ (receiveBody 5 initBodyState ["ab", "cde"]).1.body = String.join ["ab", "cde"]
      ∧ (receiveBody 5 initBodyState ["ab", "cde"]).2 = []
      ∧ ∀ req, (fun _ => Except.error "bad json") (String.join ["ab", "cde"])
            = Except.ok req →
          handleChatCompletion ⟨300000, true, 5⟩ ["ab", "cde"]
              (fun _ => Except.error "bad json") []
            = handleParsed ⟨300000, true, 5⟩ req [])
    ∧ (handleChatCompletion ⟨300000, true, 5⟩ (["ab", "cde"] ++ "fg" :: ["h"])
          (fun _ => Except.error "bad json") []
        = [Action.writeHead 413 "application/json",
           Action.endBody (.errorBody ("Request body too large. Maximum size: "
             ++ toString (5 : Nat) ++ " bytes")),
           Action.destroy])
    ∧ (handleChatCompletion ⟨300000, true, 5⟩ (["ab", "cde"] ++ "fg" :: ["h"])
          (fun _ => Except.error "bad json") []
        = handleChatCompletion ⟨300000, true, 5⟩ (["ab", "cde"] ++ "fg" :: ["h"])
            (fun _ => Except.error "other") []) :=
  body_size_guard ⟨300000, true, 5⟩ ["ab", "cde"] "fg" ["h"]
    (fun _ => Except.error "bad json") (fun _ => Except.error "other") []
    (by decide) (by decide)

end Proxy
